import Mathlib

/-!
Verification of the Snakes & Ladders game engine
(`src/snakes_and_ladders_frontend/src/Board.js`, `Chat.js`).

The file shallowly embeds the game logic of the React application:
the coordinate mapper `squareToGridPos`, the board-topology table and
`resolveSnakesAndLadders`, the move computation of `handlePlayTurn`,
the turn/busy/game-over state handling, `resetGame`, the timers
scheduled with `setTimeout`, and the chat narration `aiAddMessage`.
JavaScript numbers in the relevant ranges are modelled as `Nat`.
-/

namespace SnakesAndLadders

/-- Board side length (`BOARD_SIZE = 10` in Board.js). -/
def BOARD_SIZE : Nat := 10

/-- Final square (`END_CELL = 100` in the App section of Board.js). -/
def END_CELL : Nat := 100

/-- One snake link (`{ head, tail }` entries of the `SNAKES` array). -/
structure Snake where
  head : Nat
  tail : Nat
deriving DecidableEq

/-- One ladder link (`{ base, top }` entries of the `LADDERS` array). -/
structure Ladder where
  base : Nat
  top : Nat
deriving DecidableEq

/-- The `SNAKES` table used by the game logic (App section of Board.js). -/
def SNAKES : List Snake :=
  [⟨99, 7⟩, ⟨92, 35⟩, ⟨89, 53⟩, ⟨74, 17⟩, ⟨64, 24⟩,
   ⟨62, 19⟩, ⟨49, 11⟩, ⟨46, 5⟩, ⟨16, 6⟩]

/-- The `LADDERS` table used by the game logic (App section of Board.js). -/
def LADDERS : List Ladder :=
  [⟨2, 23⟩, ⟨8, 34⟩, ⟨20, 77⟩, ⟨32, 68⟩,
   ⟨41, 79⟩, ⟨71, 91⟩, ⟨80, 100⟩, ⟨84, 98⟩]

/-- `resolveSnakesAndLadders`, generalized over the two tables it scans.
The source iterates the module-level `SNAKES` array first (returning the
tail on the first matching head), then `LADDERS` (returning the top on the
first matching base), else returns `pos` unchanged. -/
def resolveIn (snakes : List Snake) (ladders : List Ladder) (pos : Nat) : Nat :=
  match snakes.find? (fun s => s.head == pos) with
  | some s => s.tail
  | none =>
    match ladders.find? (fun l => l.base == pos) with
    | some l => l.top
    | none => pos

/-- `resolveSnakesAndLadders(pos)` from the App section of Board.js. -/
def resolveSnakesAndLadders (pos : Nat) : Nat :=
  resolveIn SNAKES LADDERS pos

/-- `squareToGridPos(n)` from Board.js: 1-100 to 0-based `[row, col]` in
boustrophedon order.  `row = 9 - floor((n-1)/10)`, `col = (n-1) % 10`,
mirrored to `9 - col` when `(9 - row) % 2 == 1`. -/
def squareToGridPos (n : Nat) : Nat × Nat :=
  let row := BOARD_SIZE - 1 - (n - 1) / BOARD_SIZE
  let col := (n - 1) % BOARD_SIZE
  let col := if (BOARD_SIZE - 1 - row) % 2 = 1 then BOARD_SIZE - 1 - col else col
  (row, col)

/-- The cell-numbering formula of the board grid renderer (Board.js,
`[...Array(100)].map`): for the cell at 0-based `(row, col)` of the CSS
grid (row 0 at the top), the displayed number is
`100 - row*10 - (9 - col)` on even rows and `100 - row*10 - col` on odd
rows. -/
def cellNum (row col : Nat) : Nat :=
  if row % 2 = 0 then
    END_CELL - row * BOARD_SIZE - (BOARD_SIZE - 1 - col)
  else
    END_CELL - row * BOARD_SIZE - col

/-- `MoveOutcome` record of the specification, computed exactly as the
move steps 2-3 of `handlePlayTurn` compute it: `newPos = position + dice`;
if `newPos > END_CELL` the player stays (the taunt is called with
`from = to = position` and no snake/ladder flag, and no topology lookup
happens); otherwise `finalPos = resolveSnakesAndLadders(newPos)` with the
snake/ladder flags `finalPos < newPos` / `finalPos > newPos`. -/
structure MoveOutcome where
  fromSquare : Nat
  toSquare : Nat
  rolled : Nat
  crossedSnake : Bool
  crossedLadder : Bool
  overshot : Bool
deriving DecidableEq

/-- The pure move computation inlined in `handlePlayTurn` (Board.js). -/
def resolveMove (position roll : Nat) : MoveOutcome :=
  let newPos := position + roll
  if END_CELL < newPos then
    { fromSquare := position, toSquare := position, rolled := roll,
      crossedSnake := false, crossedLadder := false, overshot := true }
  else
    let finalPos := resolveSnakesAndLadders newPos
    { fromSquare := position, toSquare := finalPos, rolled := roll,
      crossedSnake := decide (finalPos < newPos),
      crossedLadder := decide (newPos < finalPos),
      overshot := false }

/-- One entry of the `players` state array of the App component. -/
structure Player where
  id : Nat
  name : String
  color : String
  position : Nat
  isUser : Bool
deriving DecidableEq

/-- The initial `players` array (`useState` initializer and `resetGame`). -/
def initialPlayers : List Player :=
  [⟨1, "You", "#d42c27", 1, true⟩, ⟨2, "AI", "#31c951", 1, false⟩]

/-- Fallback player for out-of-range indexing; the App only ever uses
indices 0 and 1 on the two-element array. -/
def defaultPlayer : Player := ⟨0, "", "", 0, false⟩

/-- The game-session slice of the App component state:
`players`, `turn`, `gameOver`, `diceValue`, `message`, `processing`. -/
structure GameState where
  players : List Player
  turn : Nat
  gameOver : Bool
  diceValue : Option Nat
  message : String
  processing : Bool
deriving DecidableEq

/-- The values of the App state a scheduled `handlePlayTurn` call has
captured in its closure.  A freshly rendered handler captures the current
state; a stale timer keeps the values from the render that scheduled it. -/
structure Closure where
  players : List Player
  turn : Nat
  gameOver : Bool
  processing : Bool
deriving DecidableEq

/-- The closure a handler rendered from game state `g` captures. -/
def snapshot (g : GameState) : Closure :=
  ⟨g.players, g.turn, g.gameOver, g.processing⟩

/-- The `setTimeout` callbacks of the App that are pending at a given
moment.  `switchAfterOvershoot` is the 1300ms callback of the overshoot
branch (clears `processing`, sets `turn` from the captured value);
`narrateAndSwitch` is the 1100ms callback of the normal branch (runs the
narration, clears `processing`, flips `turn` with a functional update);
`winNarration` is the 650ms win-taunt callback (touches no game state);
`autoTurn` is the 1200ms callback of the automated-turn `useEffect`,
which calls `handlePlayTurn` with the closure it captured. -/
inductive Pending where
  | switchAfterOvershoot (capturedTurn : Nat)
  | narrateAndSwitch
  | winNarration
  | autoTurn (captured : Closure)
deriving DecidableEq

/-- App state plus the multiset of scheduled, not-yet-fired timers. -/
structure AppState where
  game : GameState
  pending : List Pending
deriving DecidableEq

/-- `players.map((p, idx) => ...)` with the element index, as in the
`statePlayers` computation of `handlePlayTurn`. -/
def mapWithIdx (f : Nat → Player → Player) : Nat → List Player → List Player
  | _, [] => []
  | i, p :: ps => f i p :: mapWithIdx f (i + 1) ps

/-- The winner message string built in the win branch of
`handlePlayTurn`. -/
def winMessage (p : Player) : String :=
  (if p.isUser then "You" else "AI") ++ " win" ++
    (if p.isUser then "!" else "s!") ++ " 🏆"

/-- `turn === 0 ? 1 : 0`, the turn flip used throughout the App. -/
def flipTurn (t : Nat) : Nat := if t = 0 then 1 else 0

/-- `handlePlayTurn` (App section of Board.js), generalized over the
topology tables it resolves against, with the dice roll passed explicitly
(the source draws it from `rollDice()`).  The guards and the player data
are read from the values `c` captured by the handler's closure; all
`setXxx` writes land in the current state `a.game`.  The synchronous part
runs to completion; the callbacks it schedules are appended to
`a.pending`. -/
def handlePlayTurnWith (snakes : List Snake) (ladders : List Ladder)
    (c : Closure) (dice : Nat) (a : AppState) : AppState :=
  if c.processing || c.gameOver then a
  else
    let nowPlayer := c.players.getD c.turn defaultPlayer
    let g1 := { a.game with processing := true, diceValue := some dice }
    let newPos := nowPlayer.position + dice
    if END_CELL < newPos then
      { game := g1, pending := a.pending ++ [Pending.switchAfterOvershoot c.turn] }
    else
      let finalPos := resolveIn snakes ladders newPos
      let statePlayers :=
        mapWithIdx
          (fun idx p => if idx = c.turn then { p with position := finalPos } else p)
          0 c.players
      let g2 := { g1 with players := statePlayers }
      if finalPos = END_CELL then
        let g3 := { g2 with gameOver := true, message := winMessage nowPlayer, processing := false }
        { game := g3, pending := a.pending ++ [Pending.winNarration] }
      else
        { game := g2, pending := a.pending ++ [Pending.narrateAndSwitch] }

/-- `handlePlayTurn` with the shipped `SNAKES` and `LADDERS` tables. -/
def handlePlayTurn (c : Closure) (dice : Nat) (a : AppState) : AppState :=
  handlePlayTurnWith SNAKES LADDERS c dice a

/-- A fresh move request (the Play Turn button click, or an automated
turn whose effect just ran): `handlePlayTurn` with the closure of the
current state. -/
def handlePlayTurnCur (dice : Nat) (a : AppState) : AppState :=
  handlePlayTurn (snapshot a.game) dice a

/-- Effect of one pending `setTimeout` callback firing.  `dice` feeds the
`rollDice()` call of a fired automated turn; the other callbacks ignore
it.  The scheduler removes a callback from `pending` when it fires; the
removal is performed by the caller, this function applies the effect. -/
def fireTimer (p : Pending) (dice : Nat) (a : AppState) : AppState :=
  match p with
  | .switchAfterOvershoot t =>
      { a with game := { a.game with processing := false, turn := flipTurn t } }
  | .narrateAndSwitch =>
      { a with game := { a.game with processing := false, turn := flipTurn a.game.turn } }
  | .winNarration => a
  | .autoTurn c => handlePlayTurn c dice a

/-- The automated-turn `useEffect` of the App: when `turn === 1` and the
game is neither over nor processing, it schedules `handlePlayTurn` with a
1200ms `setTimeout`, capturing the current render's state in the
callback's closure.  The effect has no cleanup function. -/
def scheduleAuto (a : AppState) : AppState :=
  if a.game.turn = 1 && !a.game.gameOver && !a.game.processing then
    { a with pending := a.pending ++ [Pending.autoTurn (snapshot a.game)] }
  else a

/-- The initial game session (the `useState` initializers of the App). -/
def initialGame : GameState :=
  ⟨initialPlayers, 0, false, none, "", false⟩

/-- `resetGame()` (App section of Board.js): resets `players`, `turn`,
`gameOver`, `diceValue` and `message` to their initial values and resets
the chat to the welcome message.  The source contains no `clearTimeout`
and the automated-turn effect has no cleanup, so scheduled callbacks
survive the reset unchanged. -/
def resetGame (a : AppState) : AppState :=
  { a with game := initialGame }

/-- Role of a chat transcript entry (Chat.js message objects). -/
inductive Role where
  | user
  | assistant
deriving DecidableEq

/-- One chat transcript entry. -/
structure ChatMsg where
  role : Role
  content : String
deriving DecidableEq

/-- The state slice of the Chat component: `messages`, `loading`,
`error`. -/
structure ChatState where
  messages : List ChatMsg
  loading : Bool
  error : Option String
deriving DecidableEq

/-- How one call to the external completion service can end, as
distinguished by `aiAddMessage` in Chat.js: the fetch succeeds and yields
a reply, the service answers with a non-ok status (or the fetch throws),
or `REACT_APP_OPENAI_API_KEY` is absent and the call is aborted before
the fetch. -/
inductive NarrationOutcome where
  | success (text : String)
  | serviceError
  | missingCredential
deriving DecidableEq

/-- The error string thrown by `aiAddMessage` when the credential is
missing. -/
def missingKeyMsg : String :=
  "OPENAI_API_KEY missing! Set REACT_APP_OPENAI_API_KEY in .env."

/-- The error string thrown by `aiAddMessage` when the service responds
with a non-ok status. -/
def serviceErrMsg : String := "OpenAI response error"

/-- `aiAddMessage(userMessage, systemP)` from Chat.js, indexed by how the
service call ends.  The user message is appended and `loading`/`error`
are set before the call; the `catch` stores the error message, the
`finally` clears `loading`, so the returned promise always resolves, for
every outcome. -/
def aiAddMessage (userMessage : String) (o : NarrationOutcome)
    (c : ChatState) : ChatState :=
  let c1 := { c with messages := c.messages ++ [ChatMsg.mk Role.user userMessage],
                     loading := true, error := none }
  match o with
  | .success t =>
      { c1 with messages := c1.messages ++ [ChatMsg.mk Role.assistant t], loading := false }
  | .serviceError => { c1 with error := some serviceErrMsg, loading := false }
  | .missingCredential => { c1 with error := some missingKeyMsg, loading := false }

/-- The `moveDesc` string built by `aiEmoteTaunt` in Chat.js. -/
def moveDesc (player : Player) (dice fromSq toSq : Nat)
    (isWin isSnake isLadder : Bool) : String :=
  if isWin then
    (if player.isUser then "Player won the game!" else "AI won the game!")
  else if isSnake then
    player.name ++ " rolled a " ++ toString dice ++ " (from " ++ toString fromSq ++
      " to " ++ toString toSq ++ ") and went down a snake!"
  else if isLadder then
    player.name ++ " rolled a " ++ toString dice ++ " (from " ++ toString fromSq ++
      " to " ++ toString toSq ++ ") and climbed a ladder!"
  else if fromSq = toSq then
    player.name ++ " rolled a " ++ toString dice ++ " and could not move."
  else
    player.name ++ " rolled a " ++ toString dice ++ " and moved to " ++ toString toSq ++ "."

/-- `aiEmoteTaunt` (Chat.js): builds the move description and feeds it to
`aiAddMessage` (the choice of system prompt does not touch this state). -/
def aiEmoteTaunt (player : Player) (dice fromSq toSq : Nat)
    (isWin isSnake isLadder : Bool) (o : NarrationOutcome)
    (c : ChatState) : ChatState :=
  aiAddMessage (moveDesc player dice fromSq toSq isWin isSnake isLadder) o c

/-- The full 1100ms callback of the normal branch of `handlePlayTurn`:
`await aiEmoteTaunt(nowPlayer, dice, nowPlayer.position, finalPos, false,
finalPos < newPos, finalPos > newPos)`, then `setProcessing(false)` and
the functional turn flip.  `aiEmoteTaunt`'s promise always resolves
(Chat.js catches every failure internally), so the two game-state writes
run for every outcome `o`. -/
def fireNarrateAndSwitch (player : Player) (dice fromSq newPos finalPos : Nat)
    (o : NarrationOutcome) (a : AppState) (c : ChatState) : AppState × ChatState :=
  let c1 := aiEmoteTaunt player dice fromSq finalPos false
      (decide (finalPos < newPos)) (decide (newPos < finalPos)) o c
  ({ a with game := { a.game with processing := false, turn := flipTurn a.game.turn } }, c1)

/-- Validation predicate following the wording of the specification
(section 4.2): every endpoint in [1,100], `head > tail`, `top > base`,
no square starts two special transitions (all snake heads and ladder
bases pairwise distinct), and no snake tail or ladder top is itself a
snake head or ladder base.  The source contains no validation code; this
definition exists to state what the shipped tables satisfy and an invalid
table violates. -/
def specValidTopology (snakes : List Snake) (ladders : List Ladder) : Prop :=
  (∀ s ∈ snakes, 1 ≤ s.head ∧ s.head ≤ 100 ∧ 1 ≤ s.tail ∧ s.tail ≤ 100 ∧ s.tail < s.head)
  ∧ (∀ l ∈ ladders, 1 ≤ l.base ∧ l.base ≤ 100 ∧ 1 ≤ l.top ∧ l.top ≤ 100 ∧ l.base < l.top)
  ∧ (snakes.map Snake.head ++ ladders.map Ladder.base).Pairwise (· ≠ ·)
  ∧ (∀ s ∈ snakes, s.tail ∉ snakes.map Snake.head ∧ s.tail ∉ ladders.map Ladder.base)
  ∧ (∀ l ∈ ladders, l.top ∉ snakes.map Snake.head ∧ l.top ∉ ladders.map Ladder.base)

instance (snakes : List Snake) (ladders : List Ladder) :
    Decidable (specValidTopology snakes ladders) := by
  unfold specValidTopology
  infer_instance

/-- A topology table violating the section 4.2 invariants: a single
snake whose head is outside [1,100] and below its own tail. -/
def BAD_SNAKES : List Snake := [⟨150, 200⟩]

/-- A mid-game state: the human just moved to square 5 and the turn has
passed to the automated player; nothing is in flight, so the
automated-turn effect is about to schedule its timer. -/
def preResetGame : GameState :=
  ⟨[⟨1, "You", "#d42c27", 5, true⟩, ⟨2, "AI", "#31c951", 1, false⟩],
   1, false, some 4, "", false⟩

/-- `preResetGame` as a full app state with no timer fired yet. -/
def preResetApp : AppState := ⟨preResetGame, []⟩

/-- An idle session with the human one roll away from the win: position
95, so a roll of 5 reaches square 100 exactly. -/
def winWitnessApp : AppState :=
  ⟨⟨[⟨1, "You", "#d42c27", 95, true⟩, ⟨2, "AI", "#31c951", 1, false⟩],
    0, false, none, "", false⟩, []⟩

/-- A `handlePlayTurn` call whose captured guard values report a move in
flight or a finished game returns before touching anything: the `if
(processing || gameOver) return;` line. -/
theorem handlePlayTurn_guard (snakes : List Snake) (ladders : List Ladder)
    (c : Closure) (d : Nat) (a : AppState)
    (h : (c.processing || c.gameOver) = true) :
    handlePlayTurnWith snakes ladders c d a = a := by
  unfold handlePlayTurnWith
  simp [h]

/-- After a fresh move request, the session is either untouched because
the busy guard fired, or it reports a move in flight or a finished
game. -/
theorem handlePlayTurnCur_post (d : Nat) (a : AppState) :
    ((a.game.processing || a.game.gameOver) = true ∧ handlePlayTurnCur d a = a)
    ∨ ((handlePlayTurnCur d a).game.processing = true
        ∨ (handlePlayTurnCur d a).game.gameOver = true) := by
  by_cases h : (a.game.processing || a.game.gameOver) = true
  · exact Or.inl ⟨h, handlePlayTurn_guard SNAKES LADDERS (snapshot a.game) d a h⟩
  · right
    unfold handlePlayTurnCur handlePlayTurn handlePlayTurnWith snapshot
    simp only [Bool.not_eq_true] at h
    simp only [h, Bool.false_eq_true, if_false]
    split
    · exact Or.inl rfl
    · split
      · exact Or.inr rfl
      · exact Or.inl rfl

set_option maxRecDepth 8000 in
/-- C1: for every position p in [1,100] and roll r in [1,6], a target
beyond 100 is an overshoot: the player does not move, `overshot` is set,
and the outcome is exactly the untouched-position record (no topology
resolution enters it); otherwise `toSquare` is the topology resolution of
`p + r`, with `crossedSnake` exactly when the resolution went down and
`crossedLadder` exactly when it went up, and `overshot` is false. -/
theorem c1_resolveMove_spec :
    ∀ p < 101, ∀ r < 7, 1 ≤ p ∧ 1 ≤ r →
      (END_CELL < p + r →
        resolveMove p r = MoveOutcome.mk p p r false false true)
      ∧ (p + r ≤ END_CELL →
        resolveMove p r =
          MoveOutcome.mk p (resolveSnakesAndLadders (p + r)) r
            (decide (resolveSnakesAndLadders (p + r) < p + r))
            (decide (p + r < resolveSnakesAndLadders (p + r))) false) := by decide

/-- Witness for C1 at the concrete snake move 93 + 6 = 99 → 7. -/
theorem c1_resolveMove_spec_witness :
    resolveMove 93 6 =
      MoveOutcome.mk 93 (resolveSnakesAndLadders (93 + 6)) 6
        (decide (resolveSnakesAndLadders (93 + 6) < 93 + 6))
        (decide (93 + 6 < resolveSnakesAndLadders (93 + 6))) false :=
  (c1_resolveMove_spec 93 (by decide) 6 (by decide) (by decide)).2 (by decide)

set_option maxRecDepth 8000 in
/-- C5: `squareToGridPos` is total over [1,100] and computes
`row = 9 - (n-1)/10` with the column mirrored exactly when `9 - row` is
odd; it is injective on [1,100] and onto the 10 by 10 cell space, square 1
lands on the bottom-left corner (9,0) and square 100 on the top-left
corner (0,0). -/
theorem c5_squareToGridPos_bijection :
    (∀ n < 101, 1 ≤ n →
        squareToGridPos n =
          (9 - (n - 1) / 10,
           if (9 - (9 - (n - 1) / 10)) % 2 = 1 then 9 - (n - 1) % 10 else (n - 1) % 10)
        ∧ (squareToGridPos n).1 < 10 ∧ (squareToGridPos n).2 < 10)
    ∧ (∀ n < 101, ∀ m < 101,
        1 ≤ n ∧ 1 ≤ m ∧ squareToGridPos n = squareToGridPos m → n = m)
    ∧ (∀ r < 10, ∀ c < 10, ∃ n, n < 101 ∧ 1 ≤ n ∧ squareToGridPos n = (r, c))
    ∧ squareToGridPos 1 = (9, 0) ∧ squareToGridPos 100 = (0, 0) := by decide

/-- Witness for C5 at square 55. -/
theorem c5_squareToGridPos_bijection_witness :
    (squareToGridPos 55).1 < 10 ∧ (squareToGridPos 55).2 < 10 :=
  (c5_squareToGridPos_bijection.1 55 (by decide) (by decide)).2

/-- C6: the board grid renderer's own numbering formula is NOT the
inverse of `squareToGridPos`.  At `squareToGridPos 100 = (0, 0)` the
renderer displays 91, not 100; in fact for every square n in [1,100] the
cell at `squareToGridPos n` displays a number different from n, and n is
displayed at the horizontally mirrored cell `(row, 9 - col)` instead:
the renderer's parity test uses the top-based row index directly where
the mapper mirrors by the bottom-based row index. -/
theorem c6_renderer_numbering_mirrored :
    squareToGridPos 100 = (0, 0)
    ∧ cellNum 0 0 = 91
    ∧ cellNum 0 9 = 100
    ∧ (∀ n < 101, 1 ≤ n →
        cellNum (squareToGridPos n).1 (squareToGridPos n).2 ≠ n
        ∧ cellNum (squareToGridPos n).1 (9 - (squareToGridPos n).2) = n) := by decide

/-- C7: the shipped topology tables (9 snakes, 8 ladders) satisfy the
board invariants, and one resolution step suffices: resolution is
idempotent on every square of [1,100]. -/
theorem c7_topology_invariants :
    (∀ s < 101, 1 ≤ s →
        resolveSnakesAndLadders (resolveSnakesAndLadders s) = resolveSnakesAndLadders s)
    ∧ specValidTopology SNAKES LADDERS
    ∧ SNAKES.length = 9 ∧ LADDERS.length = 8 := by decide

/-- Witness for C7 at the snake head 99. -/
theorem c7_topology_invariants_witness :
    resolveSnakesAndLadders (resolveSnakesAndLadders 99) = resolveSnakesAndLadders 99 :=
  c7_topology_invariants.1 99 (by decide) (by decide)

/-- C8: there is no startup validation to fail fast.  The invalid table
`BAD_SNAKES` violates the invariants, yet the resolver silently applies
its out-of-range link and a game session constructed over it starts and
resolves a full move normally (dice 1 from the initial state climbs the
2 → 23 ladder).  The shipped table happens to satisfy the invariants, so
the absent check is never exercised in the shipped configuration. -/
theorem c8_no_startup_validation :
    ¬ specValidTopology BAD_SNAKES LADDERS
    ∧ resolveIn BAD_SNAKES LADDERS 150 = 200
    ∧ handlePlayTurnWith BAD_SNAKES LADDERS (snapshot initialGame) 1 ⟨initialGame, []⟩
        = ⟨⟨[⟨1, "You", "#d42c27", 23, true⟩, ⟨2, "AI", "#31c951", 1, false⟩],
            0, false, some 1, "", true⟩,
           [Pending.narrateAndSwitch]⟩
    ∧ specValidTopology SNAKES LADDERS := by decide

/-- C2: a fresh move whose resolved landing square is 100 sets
`gameOver`, records the winner message, leaves `turn` unchanged and
schedules only the win-narration callback, which never touches game
state (no turn switch); afterwards every further fresh move request
leaves the app state entirely unchanged, until `resetGame` clears the
terminal flag. -/
theorem c2_win_terminal :
    ∀ (a : AppState) (d : Nat),
      a.game.processing = false → a.game.gameOver = false →
      (a.game.players.getD a.game.turn defaultPlayer).position + d ≤ END_CELL →
      resolveSnakesAndLadders
          ((a.game.players.getD a.game.turn defaultPlayer).position + d) = END_CELL →
        (handlePlayTurnCur d a).game.gameOver = true
        ∧ (handlePlayTurnCur d a).game.turn = a.game.turn
        ∧ (handlePlayTurnCur d a).game.message
            = winMessage (a.game.players.getD a.game.turn defaultPlayer)
        ∧ (handlePlayTurnCur d a).pending = a.pending ++ [Pending.winNarration]
        ∧ (∀ d2, fireTimer Pending.winNarration d2 (handlePlayTurnCur d a)
            = handlePlayTurnCur d a)
        ∧ (∀ d2, handlePlayTurnCur d2 (handlePlayTurnCur d a) = handlePlayTurnCur d a)
        ∧ (resetGame (handlePlayTurnCur d a)).game = initialGame := by
  intro a d hp hg hle hwin
  have hwin2 : resolveIn SNAKES LADDERS
      ((a.game.players.getD a.game.turn defaultPlayer).position + d) = END_CELL := hwin
  have hnot : ¬ (END_CELL < (a.game.players.getD a.game.turn defaultPlayer).position + d) :=
    Nat.not_lt.mpr hle
  have hform : handlePlayTurnCur d a =
      ⟨⟨mapWithIdx
          (fun idx p => if idx = a.game.turn then { p with position := END_CELL } else p)
          0 a.game.players,
        a.game.turn, true, some d,
        winMessage (a.game.players.getD a.game.turn defaultPlayer), false⟩,
       a.pending ++ [Pending.winNarration]⟩ := by
    unfold handlePlayTurnCur handlePlayTurn handlePlayTurnWith
    dsimp only [snapshot]
    rw [if_neg (by simp [hp, hg])]
    rw [if_neg hnot]
    simp only [hwin2, if_true]
  rw [hform]
  refine ⟨rfl, rfl, rfl, rfl, fun d2 => rfl, fun d2 => ?_, rfl⟩
  unfold handlePlayTurnCur handlePlayTurn
  exact handlePlayTurn_guard SNAKES LADDERS _ d2 _ (by simp [snapshot])

/-- Witness for C2: the human at square 95 rolls a 5 and the game ends. -/
theorem c2_win_terminal_witness :
    (handlePlayTurnCur 5 winWitnessApp).game.gameOver = true :=
  (c2_win_terminal winWitnessApp 5 rfl rfl (by decide) (by decide)).1

/-- C3: the `if (processing || gameOver) return;` guard makes a move
request while busy or after the game is over a silent no-op: the whole
app state (both players, turn, terminal flag, dice value, pending
callbacks) is unchanged.  The same guard serves the human click and the
automated path, and a second fresh request right after any first one is
always a no-op, so at most one move is in flight at a time. -/
theorem c3_busy_guard_noop :
    ∀ (a : AppState) (d d2 : Nat) (c : Closure),
      ((c.processing || c.gameOver) = true → handlePlayTurn c d a = a)
      ∧ (a.game.processing = true → handlePlayTurnCur d a = a)
      ∧ (a.game.gameOver = true → handlePlayTurnCur d a = a)
      ∧ handlePlayTurnCur d2 (handlePlayTurnCur d a) = handlePlayTurnCur d a := by
  intro a d d2 c
  refine ⟨fun h => handlePlayTurn_guard SNAKES LADDERS c d a h,
          fun h => handlePlayTurn_guard SNAKES LADDERS _ d a (by simp [snapshot, h]),
          fun h => handlePlayTurn_guard SNAKES LADDERS _ d a (by simp [snapshot, h]),
          ?_⟩
  rcases handlePlayTurnCur_post d a with ⟨hb, heq⟩ | h
  · rw [heq]
    exact handlePlayTurn_guard SNAKES LADDERS _ d2 a hb
  · exact handlePlayTurn_guard SNAKES LADDERS _ d2 _
      (by rcases h with h | h <;> simp [snapshot, h])

/-- Witness for C3: a request while `processing` is set changes
nothing. -/
theorem c3_busy_guard_noop_witness :
    handlePlayTurn ⟨initialPlayers, 0, false, true⟩ 3 ⟨initialGame, []⟩
      = ⟨initialGame, []⟩ :=
  (c3_busy_guard_noop ⟨initialGame, []⟩ 3 3 ⟨initialPlayers, 0, false, true⟩).1 rfl

/-- C10: a fresh resolved turn mutates at most the active player's
position: the non-active player's record is returned unchanged by the
`players.map`, the active player keeps id, name, color and `isUser`, and
on an overshoot `setPlayers` is never called so neither record changes. -/
theorem c10_turn_frame :
    ∀ (a : AppState) (d : Nat) (p0 p1 : Player),
      a.game.players = [p0, p1] → a.game.processing = false → a.game.gameOver = false →
      (a.game.turn = 0 →
        (END_CELL < p0.position + d → (handlePlayTurnCur d a).game.players = [p0, p1])
        ∧ (p0.position + d ≤ END_CELL →
            (handlePlayTurnCur d a).game.players
              = [⟨p0.id, p0.name, p0.color,
                  resolveSnakesAndLadders (p0.position + d), p0.isUser⟩, p1]))
      ∧ (a.game.turn = 1 →
        (END_CELL < p1.position + d → (handlePlayTurnCur d a).game.players = [p0, p1])
        ∧ (p1.position + d ≤ END_CELL →
            (handlePlayTurnCur d a).game.players
              = [p0, ⟨p1.id, p1.name, p1.color,
                  resolveSnakesAndLadders (p1.position + d), p1.isUser⟩])) := by
  intro a d p0 p1 hpl hp hg
  constructor
  · intro ht
    constructor
    · intro hover
      unfold handlePlayTurnCur handlePlayTurn handlePlayTurnWith
      dsimp only [snapshot]
      rw [hpl, ht]
      rw [if_neg (by simp [hp, hg])]
      rw [if_pos (by simpa [List.getD] using hover)]
    · intro hle
      unfold handlePlayTurnCur handlePlayTurn handlePlayTurnWith resolveSnakesAndLadders
      dsimp only [snapshot]
      rw [hpl, ht]
      rw [if_neg (by simp [hp, hg])]
      rw [if_neg (by simpa [List.getD] using Nat.not_lt.mpr hle)]
      split <;> simp [mapWithIdx, List.getD]
  · intro ht
    constructor
    · intro hover
      unfold handlePlayTurnCur handlePlayTurn handlePlayTurnWith
      dsimp only [snapshot]
      rw [hpl, ht]
      rw [if_neg (by simp [hp, hg])]
      rw [if_pos (by simpa [List.getD] using hover)]
    · intro hle
      unfold handlePlayTurnCur handlePlayTurn handlePlayTurnWith resolveSnakesAndLadders
      dsimp only [snapshot]
      rw [hpl, ht]
      rw [if_neg (by simp [hp, hg])]
      rw [if_neg (by simpa [List.getD] using Nat.not_lt.mpr hle)]
      split <;> simp [mapWithIdx, List.getD]

/-- Witness for C10: the human at square 1 rolls a 1, climbs the 2 → 23
ladder, and the automated player's record is untouched. -/
theorem c10_turn_frame_witness :
    (handlePlayTurnCur 1 ⟨initialGame, []⟩).game.players
      = [⟨1, "You", "#d42c27", resolveSnakesAndLadders (1 + 1), true⟩,
         ⟨2, "AI", "#31c951", 1, false⟩] :=
  ((c10_turn_frame ⟨initialGame, []⟩ 1
      ⟨1, "You", "#d42c27", 1, true⟩ ⟨2, "AI", "#31c951", 1, false⟩
      rfl rfl rfl).1 rfl).2 (by decide)

/-- C4: `resetGame` does return both players to square 1, the turn to
the human, and clears the terminal flag and dice value — but it cancels
nothing: the automated-turn callback scheduled before the reset survives
in `pending`, and when it fires its stale closure passes the busy guard
and resolves a move that overwrites the freshly reset session (stale
positions restored, the automated player moved, a dice value and the
processing flag set). -/
theorem c4_reset_stale_timer :
    (resetGame (scheduleAuto preResetApp)).game = initialGame
    ∧ (resetGame (scheduleAuto preResetApp)).pending
        = [Pending.autoTurn (snapshot preResetGame)]
    ∧ fireTimer (Pending.autoTurn (snapshot preResetGame)) 3
        (resetGame (scheduleAuto preResetApp))
      = ⟨⟨[⟨1, "You", "#d42c27", 5, true⟩, ⟨2, "AI", "#31c951", 4, false⟩],
          0, false, some 3, "", true⟩,
         [Pending.autoTurn (snapshot preResetGame), Pending.narrateAndSwitch]⟩
    ∧ (fireTimer (Pending.autoTurn (snapshot preResetGame)) 3
        (resetGame (scheduleAuto preResetApp))).game ≠ initialGame := by decide

/-- C9: the narration is fire-and-forget.  The 1100ms callback's game
writes are the same for every narration outcome (the chat code resolves
its promise for success, service error and missing credential alike), so
the resulting game session is independent of the outcome, the turn still
flips and the busy flag still clears; a missing credential or service
error only becomes a visible error string in the chat state. -/
theorem c9_narration_noninterference :
    ∀ (pl : Player) (dice fromSq newPos finalPos : Nat) (a : AppState) (c : ChatState)
      (o o2 : NarrationOutcome),
      (fireNarrateAndSwitch pl dice fromSq newPos finalPos o a c).1
        = (fireNarrateAndSwitch pl dice fromSq newPos finalPos o2 a c).1
      ∧ (fireNarrateAndSwitch pl dice fromSq newPos finalPos o a c).1
          = fireTimer Pending.narrateAndSwitch dice a
      ∧ (fireNarrateAndSwitch pl dice fromSq newPos finalPos o a c).1.game.turn
          = flipTurn a.game.turn
      ∧ (fireNarrateAndSwitch pl dice fromSq newPos finalPos o a c).1.game.processing = false
      ∧ (fireNarrateAndSwitch pl dice fromSq newPos finalPos o a c).1.game.players
          = a.game.players
      ∧ (fireNarrateAndSwitch pl dice fromSq newPos finalPos
          NarrationOutcome.missingCredential a c).2.error = some missingKeyMsg
      ∧ (fireNarrateAndSwitch pl dice fromSq newPos finalPos
          NarrationOutcome.serviceError a c).2.error = some serviceErrMsg := by
  intro pl dice fromSq newPos finalPos a c o o2
  exact ⟨rfl, rfl, rfl, rfl, rfl, rfl, rfl⟩

end SnakesAndLadders
